import Mathlib

/-!
Verification of the URL-shortening HTTP service in `src/main.go`.

The whole service is three HTTP handlers (`createShortURL`,
`redirectShortURL`, `getURLStats`) over two in-memory maps
(`urlStore : map[string]ShortURL` and `analytics : map[string][]Click`)
guarded by one lock.  We embed the handlers as pure functions: the two maps
become a `Store` of association lists, each call to Go's `time.Now()`
becomes an explicit `Int` parameter (Unix nanoseconds, matching `time.Time`
precision — except the generator's `time.Now().Unix()`, which is Unix
seconds; the source calls `time.Now()` several times per handler, so each
call site gets its own parameter), the JSON-decoded request body becomes an
`Option ShortURLRequest` (`none` models a body that fails to decode), and
each handler returns its outcome together with the store it leaves behind.
-/

namespace URLShortener

/-- Mirrors the Go struct `ShortURL` (src/main.go lines 36-42); timestamps
are Unix nanoseconds. -/
structure ShortURL where
  shortCode : String
  originalURL : String
  createdAt : Int
  expiresAt : Int
  isActive : Bool
deriving DecidableEq, Repr

/-- Mirrors the Go struct `ShortURLRequest` (lines 44-48).  Go's
`encoding/json` leaves omitted fields at their zero value, so an omitted
`validity` decodes to `0` and an omitted `shortcode` to `""`. -/
structure ShortURLRequest where
  url : String
  validity : Int
  shortcode : String
deriving DecidableEq, Repr

/-- Mirrors the Go struct `ShortURLResponse` (lines 50-53). -/
structure ShortURLResponse where
  shortLink : String
  expiry : String
deriving DecidableEq, Repr

/-- Mirrors the Go struct `Click` (lines 63-68). -/
structure Click where
  timestamp : Int
  referrer : String
  userAgent : String
  ipAddress : String
deriving DecidableEq, Repr

/-- Mirrors the Go struct `URLStats` (lines 55-61). -/
structure URLStats where
  originalURL : String
  createdAt : Int
  expiresAt : Int
  totalClicks : Nat
  clickDetails : List Click
deriving DecidableEq, Repr

/-- The two process-wide maps of src/main.go lines 29-33, embedded as
association lists (first binding for a key wins, and `mapInsert` keeps at
most one binding per key). -/
structure Store where
  urlStore : List (String × ShortURL)
  analytics : List (String × List Click)
deriving DecidableEq, Repr

/-- Go map read `m[k]`: the value bound to `k`, if any. -/
def mapLookup {α : Type} (k : String) : List (String × α) → Option α
  | [] => none
  | (k', v) :: rest => if k' = k then some v else mapLookup k rest

/-- Go map write `m[k] = v`: replaces the binding for `k`, or appends one. -/
def mapInsert {α : Type} (k : String) (v : α) : List (String × α) → List (String × α)
  | [] => [(k, v)]
  | (k', v') :: rest =>
      if k' = k then (k, v) :: rest else (k', v') :: mapInsert k v rest

/-! ## Duration and timestamp arithmetic

Go's `time.Duration` is an int64 count of nanoseconds and `time.Minute` is
the constant 60·10⁹; the multiplication at line 90,
`time.Duration(req.Validity) * time.Minute`, is therefore int64
multiplication, which wraps around (two's complement) when
|validity| ≥ 153722868 minutes. -/

/-- Two's-complement wrap-around of 64-bit signed integer arithmetic. -/
def wrap64 (x : Int) : Int :=
  (x + 9223372036854775808) % 18446744073709551616 - 9223372036854775808

/-- Line 90's `time.Duration(req.Validity) * time.Minute`, in nanoseconds:
int64 multiplication of the validity by 60·10⁹, wrapping on overflow. -/
def goDurationMinutes (v : Int) : Int := wrap64 (v * 60000000000)

/-! ## Timestamp rendering

The create handler formats the expiry with `expiresAt.Format(time.RFC3339)`
(line 134).  We embed the RFC 3339 rendering of a Unix-nanoseconds
timestamp (UTC, `YYYY-MM-DDTHH:MM:SSZ`; Go's RFC3339 layout has no
sub-second digits), using the standard civil-from-days calendar
conversion. -/

def pad2 (n : Nat) : String :=
  if n < 10 then "0" ++ toString n else toString n

def pad4 (n : Nat) : String :=
  if n < 10 then "000" ++ toString n
  else if n < 100 then "00" ++ toString n
  else if n < 1000 then "0" ++ toString n
  else toString n

/-- Civil date (year, month, day) of a day count relative to 1970-01-01. -/
def civilFromDays (z0 : Int) : Int × Nat × Nat :=
  let z := z0 + 719468
  let era : Int := z.fdiv 146097
  let doe : Nat := (z - era * 146097).toNat
  let yoe : Nat := (doe - doe / 1460 + doe / 36524 - doe / 146096) / 365
  let doy : Nat := doe - (365 * yoe + yoe / 4 - yoe / 100)
  let mp : Nat := (5 * doy + 2) / 153
  let d : Nat := doy - (153 * mp + 2) / 5 + 1
  let m : Nat := if mp < 10 then mp + 3 else mp - 9
  ((yoe : Int) + era * 400 + (if m ≤ 2 then 1 else 0), m, d)

/-- RFC 3339 text for a Unix-nanoseconds timestamp, in UTC. -/
def formatRFC3339 (tns : Int) : String :=
  let t := tns.fdiv 1000000000
  let days := t.fdiv 86400
  let rem : Nat := (t - days * 86400).toNat
  let ymd := civilFromDays days
  pad4 ymd.1.toNat ++ "-" ++ pad2 ymd.2.1 ++ "-" ++ pad2 ymd.2.2 ++ "T" ++
    pad2 (rem / 3600) ++ ":" ++ pad2 (rem / 60 % 60) ++ ":" ++
    pad2 (rem % 60) ++ "Z"

/-! ## Code generator

Without a custom shortcode, the handler encodes `int(time.Now().Unix())`
through the `go-hashids` library with salt `"url-shortener-salt"` and
`MinLength = 5` (lines 104-111). -/

/-- Modelled from the spec: the `go-hashids` encoding used by the code
generator.  The library (`github.com/speps/go-hashids`) is a dependency and
its source is not part of this repository, so following the spec we model
it as "a reversible hashing/encoding scheme parameterized by a fixed salt
and a minimum output length (5 characters)": the timestamp's digits written
in a salt-shuffled alphabet and left-padded with alphabet characters up to
the minimum length.  The claims depend only on the encoding being a
deterministic function of the timestamp with outputs of length at least 5,
which this model shares with the library. -/
def hashidsAlphabet : List Char :=
  "abcdefghijklmnopqrstuvwxyzABCDEFGHIJKLMNOPQRSTUVWXYZ1234567890".toList

def hashidsSalt : String := "url-shortener-salt"

def hashidsMinLength : Nat := 5

/-- Salt-derived rotation of the alphabet (model of the library's
salt-driven consistent shuffle). -/
def shuffledAlphabet : List Char :=
  let k := (hashidsSalt.toList.map Char.toNat).sum % hashidsAlphabet.length
  hashidsAlphabet.drop k ++ hashidsAlphabet.take k

/-- Big-endian digits of `n` in base `b`, with explicit fuel. -/
def toBaseDigits (b : Nat) (n : Nat) : Nat → List Nat
  | 0 => []
  | fuel + 1 => if n < b then [n] else toBaseDigits b (n / b) fuel ++ [n % b]

def encodeNat (alphabet : List Char) (n : Nat) : List Char :=
  (toBaseDigits alphabet.length n (n + 1)).map (fun d => alphabet.getD d 'x')

def padToMin (alphabet : List Char) (minLen : Nat) (cs : List Char) :
    List Char :=
  ((List.range (minLen - cs.length)).map (fun i => alphabet.getD i 'x')) ++ cs

def hashidsEncode (n : Nat) : String :=
  String.mk (padToMin shuffledAlphabet hashidsMinLength
    (encodeNat shuffledAlphabet n))

/-- The code chosen for a create request with no custom shortcode, as a
function of the `time.Now().Unix()` value observed at line 110. -/
def autoCode (tGen : Int) : String := hashidsEncode tGen.toNat

/-! ## Handlers -/

/-- Outcome of `createShortURL`: the two 400 responses (lines 75, 81), the
409 response (line 100), and the 201 response with its JSON body
(lines 132-139). -/
inductive CreateOutcome where
  | invalidBody
  | invalidURL
  | conflict
  | created (resp : ShortURLResponse)
deriving DecidableEq, Repr

def CreateOutcome.status : CreateOutcome → Nat
  | .invalidBody => 400
  | .invalidURL => 400
  | .conflict => 409
  | .created _ => 201

/-- Outcome of `redirectShortURL`: 404 (line 151), 410 (line 156), or a
302 redirect to the original URL (line 172). -/
inductive RedirectOutcome where
  | notFound
  | gone
  | redirect (location : String)
deriving DecidableEq, Repr

def RedirectOutcome.status : RedirectOutcome → Nat
  | .notFound => 404
  | .gone => 410
  | .redirect _ => 302

/-- Outcome of `getURLStats`: 404 (line 185) or the 200 JSON body
(lines 189-198). -/
inductive StatsOutcome where
  | notFound
  | ok (stats : URLStats)
deriving DecidableEq, Repr

def StatsOutcome.status : StatsOutcome → Nat
  | .notFound => 404
  | .ok _ => 200

/-- Go `strings.HasPrefix(s, pre)` (used at line 80): `pre` is a prefix of
`s`, character by character. -/
def goHasPrefix (s pre : String) : Bool := pre.toList.isPrefixOf s.toList

/-- Lines 113-139 of `createShortURL`, shared by both shortcode branches:
build the record, write both maps, and build the 201 response.
`tCreate` is the `time.Now()` of line 117. -/
def insertAndRespond (tCreate expiresAt : Int) (host url shortCode : String)
    (s : Store) : CreateOutcome × Store :=
  let newURL : ShortURL :=
    { shortCode := shortCode, originalURL := url, createdAt := tCreate,
      expiresAt := expiresAt, isActive := true }
  let s' : Store :=
    { urlStore := mapInsert shortCode newURL s.urlStore,
      analytics := mapInsert shortCode [] s.analytics }
  let host' := if host = "" then "localhost:8080" else host
  (CreateOutcome.created
    { shortLink := "http://" ++ host' ++ "/" ++ shortCode,
      expiry := formatRFC3339 expiresAt }, s')

/-- The `POST /shorturls` handler (src/main.go lines 71-140).
`tExp` is the `time.Now()` of line 90 (expiry computation), `tGen` the
`time.Now().Unix()` of line 110 (code generation; only read when no custom
shortcode is supplied), `tCreate` the `time.Now()` of line 117 (the stored
`CreatedAt`).  `body` is the JSON-decoded request body (`none` when
decoding fails). -/
def createShortURL (tExp tGen tCreate : Int) (host : String)
    (body : Option ShortURLRequest) (s : Store) : CreateOutcome × Store :=
  match body with
  | none => (CreateOutcome.invalidBody, s)
  | some req =>
    if !goHasPrefix req.url "http://" && !goHasPrefix req.url "https://" then
      (CreateOutcome.invalidURL, s)
    else
      let validity : Int := if req.validity = 0 then 30 else req.validity
      let expiresAt : Int := tExp + goDurationMinutes validity
      if req.shortcode ≠ "" then
        if (mapLookup req.shortcode s.urlStore).isSome then
          (CreateOutcome.conflict, s)
        else
          insertAndRespond tCreate expiresAt host req.url req.shortcode s
      else
        insertAndRespond tCreate expiresAt host req.url (autoCode tGen) s

/-- Line 165: `strings.Split(r.RemoteAddr, ":")[0]` — element 0 of the
split is exactly the text before the first colon of the remote address. -/
def stripPort (remoteAddr : String) : String :=
  String.mk (remoteAddr.toList.takeWhile (fun c => c ≠ ':'))

/-- The `GET /{shortcode}` handler (src/main.go lines 142-173).
`tCheck` is the `time.Now()` of line 155 (expiry check), `tClick` the
`time.Now()` of line 162 (click timestamp); `referer` and `userAgent` are
the request headers read by `r.Referer()` and `r.UserAgent()`. -/
def redirectShortURL (tCheck tClick : Int)
    (remoteAddr referer userAgent shortCode : String) (s : Store) :
    RedirectOutcome × Store :=
  match mapLookup shortCode s.urlStore with
  | none => (RedirectOutcome.notFound, s)
  | some url =>
    if !url.isActive then (RedirectOutcome.notFound, s)
    else if url.expiresAt < tCheck then (RedirectOutcome.gone, s)
    else
      let click : Click :=
        { timestamp := tClick, referrer := referer, userAgent := userAgent,
          ipAddress := stripPort remoteAddr }
      let newClicks := (mapLookup shortCode s.analytics).getD [] ++ [click]
      (RedirectOutcome.redirect url.originalURL,
       { s with analytics := mapInsert shortCode newClicks s.analytics })

/-- The `GET /shorturls/{shortcode}` handler (src/main.go lines 175-199).
It only reads, so it returns the store unchanged. -/
def getURLStats (shortCode : String) (s : Store) : StatsOutcome × Store :=
  let clicks := (mapLookup shortCode s.analytics).getD []
  match mapLookup shortCode s.urlStore with
  | none => (StatsOutcome.notFound, s)
  | some url =>
    (StatsOutcome.ok
      { originalURL := url.originalURL, createdAt := url.createdAt,
        expiresAt := url.expiresAt, totalClicks := clicks.length,
        clickDetails := clicks }, s)

/-! ## Derived notions and spec-side definitions -/

/-- The expiry computed at line 90 for a decoded request: validity defaults
to 30 minutes when the field is zero (lines 86-88), and the
minutes-to-Duration conversion is Go's wrapping int64 multiplication. -/
def computedExpiry (tExp : Int) (req : ShortURLRequest) : Int :=
  tExp + goDurationMinutes (if req.validity = 0 then 30 else req.validity)

/-- The short code a successful create request stores: the custom code when
one is supplied (line 103), else the generated code (line 110). -/
def chosenCode (req : ShortURLRequest) (tGen : Int) : String :=
  if req.shortcode = "" then autoCode tGen else req.shortcode

/-- The spec's phrase for the recorded client address — "the remote address
with the port suffix stripped" (spec 4.5) — read literally: remove the
final colon-separated segment when one exists.  Defined only to compare
with what the code actually computes (`stripPort`). -/
def specStripPortSuffix (s : String) : String :=
  if s.toList.contains ':' then
    String.mk (((s.toList.reverse.dropWhile (fun c => c ≠ ':')).drop
      1).reverse)
  else s

/-- The spec's phrase for the returned short link — "scheme + request host
+ \"/\" + code" (spec 4.4 step 6) — with the request's scheme made
explicit.  Defined only to compare with what the code actually emits,
which hardcodes `http://` (line 133). -/
def specShortLink (scheme host shortCode : String) : String :=
  scheme ++ "://" ++ host ++ "/" ++ shortCode

/-- One client-visible operation of the service: a create, redirect or
stats request, with the clock values each handler would observe. -/
inductive Op where
  | create (tExp tGen tCreate : Int) (host : String)
      (body : Option ShortURLRequest)
  | redirect (tCheck tClick : Int)
      (remoteAddr referer userAgent shortCode : String)
  | stats (shortCode : String)

/-- The store an operation leaves behind. -/
def applyOp : Op → Store → Store
  | Op.create tExp tGen tCreate host body, s =>
      (createShortURL tExp tGen tCreate host body s).2
  | Op.redirect tCheck tClick remoteAddr referer userAgent shortCode, s =>
      (redirectShortURL tCheck tClick remoteAddr referer userAgent shortCode
        s).2
  | Op.stats shortCode, s => (getURLStats shortCode s).2

/-- Freshness precondition for the store invariant: an automatic create
must generate a code that is not already in the URL store.  The custom
path never overwrites (the 409 existence check at lines 95-102 guards it);
it is the automatic path — a deterministic function of the clock — that
can collide with an existing code and silently overwrite it, the overwrite
the spec itself documents in section 4.2. -/
def createFresh : Op → Store → Prop
  | Op.create _ tGen _ _ (some req), s =>
      req.shortcode = "" → mapLookup (autoCode tGen) s.urlStore = none
  | _, _ => True

/-! ## Map lemmas -/

theorem mapLookup_mapInsert_self {α : Type} (k : String) (v : α)
    (l : List (String × α)) : mapLookup k (mapInsert k v l) = some v := by
  induction l with
  | nil => simp [mapInsert, mapLookup]
  | cons p rest ih =>
      by_cases h : p.1 = k
      · simp [mapInsert, mapLookup, h]
      · simp [mapInsert, mapLookup, h, ih]

theorem mapLookup_mapInsert_ne {α : Type} (k k' : String) (v : α)
    (l : List (String × α)) (h : k ≠ k') :
    mapLookup k (mapInsert k' v l) = mapLookup k l := by
  have h' : ¬ k' = k := fun e => h e.symm
  induction l with
  | nil => simp [mapInsert, mapLookup, h']
  | cons p rest ih =>
      by_cases hp : p.1 = k'
      · simp [mapInsert, mapLookup, hp, h']
      · simp [mapInsert, mapLookup, hp, ih]

theorem hashidsEncode_length (n : Nat) :
    hashidsMinLength ≤ (hashidsEncode n).length := by
  show hashidsMinLength ≤ (String.mk _).length
  rw [String.length]
  simp only [hashidsEncode, padToMin, List.length_append, List.length_map,
    List.length_range]
  omega

/-- Within int64 range the two's-complement wrap is the identity. -/
theorem wrap64_eq_self (x : Int) (h1 : -9223372036854775808 ≤ x)
    (h2 : x < 9223372036854775808) : wrap64 x = x := by
  unfold wrap64
  omega

/-- For |v| ≤ 153722867 minutes the Duration product stays inside int64
range and does not wrap. -/
theorem goDurationMinutes_eq (v : Int) (h : v.natAbs ≤ 153722867) :
    goDurationMinutes v = v * 60000000000 := by
  unfold goDurationMinutes wrap64
  omega

/-! ## Branch characterizations of the handlers -/

theorem insertAndRespond_eq (tCreate expiresAt : Int)
    (host url shortCode : String) (s : Store) :
    insertAndRespond tCreate expiresAt host url shortCode s =
      (CreateOutcome.created
        { shortLink :=
            "http://" ++ (if host = "" then "localhost:8080" else host) ++
              "/" ++ shortCode,
          expiry := formatRFC3339 expiresAt },
       { urlStore :=
           mapInsert shortCode
             { shortCode := shortCode, originalURL := url,
               createdAt := tCreate, expiresAt := expiresAt,
               isActive := true } s.urlStore,
         analytics := mapInsert shortCode [] s.analytics }) := rfl

theorem createShortURL_noBody (tExp tGen tCreate : Int) (host : String)
    (s : Store) :
    createShortURL tExp tGen tCreate host none s =
      (CreateOutcome.invalidBody, s) := rfl

theorem createShortURL_invalidURL (tExp tGen tCreate : Int) (host : String)
    (req : ShortURLRequest) (s : Store)
    (h1 : goHasPrefix req.url "http://" = false)
    (h2 : goHasPrefix req.url "https://" = false) :
    createShortURL tExp tGen tCreate host (some req) s =
      (CreateOutcome.invalidURL, s) := by
  simp [createShortURL, h1, h2]

theorem createShortURL_conflict (tExp tGen tCreate : Int) (host : String)
    (req : ShortURLRequest) (s : Store)
    (hurl : goHasPrefix req.url "http://" = true ∨
      goHasPrefix req.url "https://" = true)
    (hsc : req.shortcode ≠ "")
    (hex : (mapLookup req.shortcode s.urlStore).isSome = true) :
    createShortURL tExp tGen tCreate host (some req) s =
      (CreateOutcome.conflict, s) := by
  rcases hurl with h | h <;> simp [createShortURL, h, hsc, hex]

theorem createShortURL_custom (tExp tGen tCreate : Int) (host : String)
    (req : ShortURLRequest) (s : Store)
    (hurl : goHasPrefix req.url "http://" = true ∨
      goHasPrefix req.url "https://" = true)
    (hsc : req.shortcode ≠ "")
    (hex : mapLookup req.shortcode s.urlStore = none) :
    createShortURL tExp tGen tCreate host (some req) s =
      insertAndRespond tCreate (computedExpiry tExp req) host req.url
        req.shortcode s := by
  rcases hurl with h | h <;>
    simp [createShortURL, computedExpiry, h, hsc, hex]

theorem createShortURL_auto (tExp tGen tCreate : Int) (host : String)
    (req : ShortURLRequest) (s : Store)
    (hurl : goHasPrefix req.url "http://" = true ∨
      goHasPrefix req.url "https://" = true)
    (hsc : req.shortcode = "") :
    createShortURL tExp tGen tCreate host (some req) s =
      insertAndRespond tCreate (computedExpiry tExp req) host req.url
        (autoCode tGen) s := by
  rcases hurl with h | h <;>
    simp [createShortURL, computedExpiry, h, hsc]

theorem redirectShortURL_absent (tCheck tClick : Int)
    (remoteAddr referer userAgent shortCode : String) (s : Store)
    (h : mapLookup shortCode s.urlStore = none) :
    redirectShortURL tCheck tClick remoteAddr referer userAgent shortCode s =
      (RedirectOutcome.notFound, s) := by
  simp [redirectShortURL, h]

theorem redirectShortURL_inactive (tCheck tClick : Int)
    (remoteAddr referer userAgent shortCode : String) (s : Store)
    (u : ShortURL) (h : mapLookup shortCode s.urlStore = some u)
    (ha : u.isActive = false) :
    redirectShortURL tCheck tClick remoteAddr referer userAgent shortCode s =
      (RedirectOutcome.notFound, s) := by
  simp [redirectShortURL, h, ha]

theorem redirectShortURL_expired (tCheck tClick : Int)
    (remoteAddr referer userAgent shortCode : String) (s : Store)
    (u : ShortURL) (h : mapLookup shortCode s.urlStore = some u)
    (ha : u.isActive = true) (hx : u.expiresAt < tCheck) :
    redirectShortURL tCheck tClick remoteAddr referer userAgent shortCode s =
      (RedirectOutcome.gone, s) := by
  simp [redirectShortURL, h, ha, hx]

theorem redirectShortURL_live (tCheck tClick : Int)
    (remoteAddr referer userAgent shortCode : String) (s : Store)
    (u : ShortURL) (h : mapLookup shortCode s.urlStore = some u)
    (ha : u.isActive = true) (hx : ¬ u.expiresAt < tCheck) :
    redirectShortURL tCheck tClick remoteAddr referer userAgent shortCode s =
      (RedirectOutcome.redirect u.originalURL,
       Store.mk s.urlStore
         (mapInsert shortCode
           ((mapLookup shortCode s.analytics).getD [] ++
             [{ timestamp := tClick, referrer := referer,
                userAgent := userAgent,
                ipAddress := stripPort remoteAddr }]) s.analytics)) := by
  simp [redirectShortURL, h, ha, hx]

theorem getURLStats_absent (shortCode : String) (s : Store)
    (h : mapLookup shortCode s.urlStore = none) :
    getURLStats shortCode s = (StatsOutcome.notFound, s) := by
  simp [getURLStats, h]

theorem getURLStats_present (shortCode : String) (s : Store) (u : ShortURL)
    (h : mapLookup shortCode s.urlStore = some u) :
    getURLStats shortCode s =
      (StatsOutcome.ok
        { originalURL := u.originalURL, createdAt := u.createdAt,
          expiresAt := u.expiresAt,
          totalClicks := ((mapLookup shortCode s.analytics).getD []).length,
          clickDetails := (mapLookup shortCode s.analytics).getD [] }, s) := by
  simp [getURLStats, h]

/-! ## Claim C1 -/

/-- C1: for `GET /{shortcode}`, a code that is absent from the URL store or
whose record has `isActive = false` yields status 404, while a record that
exists, is active, and whose expiry lies strictly before the current time
yields status 410; expired-but-existing codes are thus distinguished from
never-existing codes by their status. -/
theorem c1_redirect_error_statuses (tCheck tClick : Int)
    (remoteAddr referer userAgent shortCode : String) (s : Store) :
    ((mapLookup shortCode s.urlStore = none ∨
        (∃ u, mapLookup shortCode s.urlStore = some u ∧
          u.isActive = false)) →
      (redirectShortURL tCheck tClick remoteAddr referer userAgent shortCode
        s).1.status = 404)
  ∧ (∀ u, mapLookup shortCode s.urlStore = some u → u.isActive = true →
      u.expiresAt < tCheck →
      (redirectShortURL tCheck tClick remoteAddr referer userAgent shortCode
        s).1.status = 410) := by
  constructor
  · rintro (h | ⟨u, hu, ha⟩)
    · rw [redirectShortURL_absent _ _ _ _ _ _ _ h]; rfl
    · rw [redirectShortURL_inactive _ _ _ _ _ _ _ u hu ha]; rfl
  · intro u hu ha hx
    rw [redirectShortURL_expired _ _ _ _ _ _ _ u hu ha hx]; rfl

/-- Witness for C1: on concrete stores, a never-created code gives 404 and
an existing, active record whose expiry (0) is strictly before the current
time (1) gives 410. -/
theorem c1_redirect_error_statuses_witness :
    (redirectShortURL 1 1 "1.2.3.4:80" "" "" "missing"
      (Store.mk [] [])).1.status = 404
  ∧ (redirectShortURL 1 1 "1.2.3.4:80" "" "" "abc"
      (Store.mk [("abc", ShortURL.mk "abc" "http://x" 0 0 true)]
        [("abc", [])])).1.status = 410 :=
  ⟨(c1_redirect_error_statuses 1 1 "1.2.3.4:80" "" "" "missing"
      (Store.mk [] [])).1 (Or.inl rfl),
   (c1_redirect_error_statuses 1 1 "1.2.3.4:80" "" "" "abc"
      (Store.mk [("abc", ShortURL.mk "abc" "http://x" 0 0 true)]
        [("abc", [])])).2 (ShortURL.mk "abc" "http://x" 0 0 true)
      (by decide) rfl (by decide)⟩

/-! ## Claim C5 -/

/-- C5: `GET /shorturls/{shortcode}` fails with 404 exactly when the code
is absent from the URL store; otherwise — even for expired or inactive
records — it returns the record's original URL, creation and expiry
timestamps, a `totalClicks` equal to the length of the code's click list,
and that click list itself in stored order; the stores are left
unchanged. -/
theorem c5_stats_spec (shortCode : String) (s : Store) :
    ((getURLStats shortCode s).1.status = 404 ↔
      mapLookup shortCode s.urlStore = none)
  ∧ (∀ u, mapLookup shortCode s.urlStore = some u →
      (getURLStats shortCode s).1 = StatsOutcome.ok
        { originalURL := u.originalURL, createdAt := u.createdAt,
          expiresAt := u.expiresAt,
          totalClicks := ((mapLookup shortCode s.analytics).getD []).length,
          clickDetails := (mapLookup shortCode s.analytics).getD [] })
  ∧ (getURLStats shortCode s).2 = s := by
  refine ⟨?_, ?_, ?_⟩
  · cases h : mapLookup shortCode s.urlStore with
    | none => rw [getURLStats_absent _ _ h]; simp [StatsOutcome.status]
    | some u => rw [getURLStats_present _ _ u h]; simp [StatsOutcome.status]
  · intro u hu
    rw [getURLStats_present _ _ u hu]
  · cases h : mapLookup shortCode s.urlStore with
    | none => rw [getURLStats_absent _ _ h]
    | some u => rw [getURLStats_present _ _ u h]

/-- Witness for C5: stats of an expired record are still served, with the
stored click reported, and the store is unchanged. -/
theorem c5_stats_spec_witness :
    ((getURLStats "abc"
      (Store.mk [("abc", ShortURL.mk "abc" "http://x" 0 0 true)]
        [("abc", [Click.mk 1 "r" "ua" "1.2.3.4"])])).1 = StatsOutcome.ok
      (URLStats.mk "http://x" 0 0 1 [Click.mk 1 "r" "ua" "1.2.3.4"]))
  ∧ (getURLStats "abc"
      (Store.mk [("abc", ShortURL.mk "abc" "http://x" 0 0 true)]
        [("abc", [Click.mk 1 "r" "ua" "1.2.3.4"])])).2 =
      Store.mk [("abc", ShortURL.mk "abc" "http://x" 0 0 true)]
        [("abc", [Click.mk 1 "r" "ua" "1.2.3.4"])] :=
  ⟨(c5_stats_spec "abc"
      (Store.mk [("abc", ShortURL.mk "abc" "http://x" 0 0 true)]
        [("abc", [Click.mk 1 "r" "ua" "1.2.3.4"])])).2.1
      (ShortURL.mk "abc" "http://x" 0 0 true) (by decide),
   (c5_stats_spec "abc"
      (Store.mk [("abc", ShortURL.mk "abc" "http://x" 0 0 true)]
        [("abc", [Click.mk 1 "r" "ua" "1.2.3.4"])])).2.2⟩

/-! ## Claim C4 -/

/-- C4 counterexample: for the IPv6-style remote address `"[::1]:8080"` the
handler records the client IP `"["` (the text before the FIRST colon),
which differs from the remote address with the port suffix stripped
(`"[::1]"`); every other part of the claim holds at this input. -/
theorem c4_click_ip_counterexample :
    (mapLookup "abc"
      ((redirectShortURL 1 1 "[::1]:8080" "r" "ua" "abc"
        (Store.mk [("abc", ShortURL.mk "abc" "http://x" 0 5 true)]
          [("abc", [])])).2.analytics)) =
      some [Click.mk 1 "r" "ua" "["]
  ∧ specStripPortSuffix "[::1]:8080" = "[::1]"
  ∧ ("[" : String) ≠ "[::1]" := by decide

/-- C4 (amended): a redirect on an existing, active, unexpired code appends
exactly one click event — timestamp now, referrer and user-agent from that
request's headers, and client IP equal to the text of the remote address
before its FIRST colon (which equals the remote address with the port
stripped for IPv4 addresses, but truncates IPv6 addresses) — preserving all
previously recorded clicks for that code, leaving other codes' analytics
and the URL store untouched, and responds with a 302 redirect to the
record's original URL. -/
theorem c4_redirect_success (tCheck tClick : Int)
    (remoteAddr referer userAgent shortCode : String) (s : Store)
    (u : ShortURL) (hu : mapLookup shortCode s.urlStore = some u)
    (ha : u.isActive = true) (hx : ¬ u.expiresAt < tCheck) :
    (redirectShortURL tCheck tClick remoteAddr referer userAgent shortCode
      s).1 = RedirectOutcome.redirect u.originalURL
  ∧ (redirectShortURL tCheck tClick remoteAddr referer userAgent shortCode
      s).1.status = 302
  ∧ mapLookup shortCode (redirectShortURL tCheck tClick remoteAddr referer
      userAgent shortCode s).2.analytics =
      some ((mapLookup shortCode s.analytics).getD [] ++
        [Click.mk tClick referer userAgent (stripPort remoteAddr)])
  ∧ (∀ c, c ≠ shortCode →
      mapLookup c (redirectShortURL tCheck tClick remoteAddr referer
        userAgent shortCode s).2.analytics = mapLookup c s.analytics)
  ∧ (redirectShortURL tCheck tClick remoteAddr referer userAgent shortCode
      s).2.urlStore = s.urlStore := by
  rw [redirectShortURL_live tCheck tClick remoteAddr referer userAgent
    shortCode s u hu ha hx]
  refine ⟨rfl, rfl, ?_, ?_, rfl⟩
  · exact mapLookup_mapInsert_self _ _ _
  · intro c hc
    exact mapLookup_mapInsert_ne _ _ _ _ hc

/-- Witness for C4 (amended) at a concrete live record and IPv4 remote
address: the single appended click carries the request's referrer,
user-agent and address, and the earlier click is preserved. -/
theorem c4_redirect_success_witness :
    (redirectShortURL 3 3 "1.2.3.4:5678" "ref" "agent" "abc"
      (Store.mk [("abc", ShortURL.mk "abc" "http://x" 0 5 true)]
        [("abc", [Click.mk 1 "r0" "ua0" "9.9.9.9"])])).1 =
      RedirectOutcome.redirect "http://x"
  ∧ mapLookup "abc"
      (redirectShortURL 3 3 "1.2.3.4:5678" "ref" "agent" "abc"
        (Store.mk [("abc", ShortURL.mk "abc" "http://x" 0 5 true)]
          [("abc", [Click.mk 1 "r0" "ua0" "9.9.9.9"])])).2.analytics =
      some [Click.mk 1 "r0" "ua0" "9.9.9.9",
        Click.mk 3 "ref" "agent" "1.2.3.4"] := by
  have h := c4_redirect_success 3 3 "1.2.3.4:5678" "ref" "agent" "abc"
    (Store.mk [("abc", ShortURL.mk "abc" "http://x" 0 5 true)]
      [("abc", [Click.mk 1 "r0" "ua0" "9.9.9.9"])])
    (ShortURL.mk "abc" "http://x" 0 5 true) (by decide) rfl (by decide)
  exact ⟨h.1, by rw [h.2.2.1]; decide⟩

/-- A create request with a decoded body, a valid URL, and either no
custom code or a fresh custom code reaches the shared insert-and-respond
tail with the chosen code. -/
theorem createShortURL_success (tExp tGen tCreate : Int) (host : String)
    (req : ShortURLRequest) (s : Store)
    (hurl : goHasPrefix req.url "http://" = true ∨
      goHasPrefix req.url "https://" = true)
    (hok : req.shortcode = "" ∨ mapLookup req.shortcode s.urlStore = none) :
    createShortURL tExp tGen tCreate host (some req) s =
      insertAndRespond tCreate (computedExpiry tExp req) host req.url
        (chosenCode req tGen) s := by
  by_cases hsc : req.shortcode = ""
  · rw [createShortURL_auto _ _ _ _ _ _ hurl hsc]
    simp [chosenCode, hsc]
  · rcases hok with hsc' | hex
    · exact absurd hsc' hsc
    · rw [createShortURL_custom _ _ _ _ _ _ hurl hsc hex]
      simp [chosenCode, hsc]

/-- `getURLStats` writes nothing. -/
theorem getURLStats_store (shortCode : String) (s : Store) :
    (getURLStats shortCode s).2 = s := by
  cases h : mapLookup shortCode s.urlStore with
  | none => rw [getURLStats_absent _ _ h]
  | some u => rw [getURLStats_present _ _ u h]

/-- If the URL does not fail the validation test of line 80, one of the two
prefixes matches. -/
theorem goHasPrefix_or_of_not_both {u : String}
    (hv : ¬ (goHasPrefix u "http://" = false ∧
      goHasPrefix u "https://" = false)) :
    goHasPrefix u "http://" = true ∨ goHasPrefix u "https://" = true := by
  cases h1 : goHasPrefix u "http://" with
  | true => exact Or.inl rfl
  | false =>
      cases h2 : goHasPrefix u "https://" with
      | true => exact Or.inr rfl
      | false => exact absurd ⟨h1, h2⟩ hv

/-- A create request with a decoded body and a valid URL responds 409 or
201, never 400. -/
theorem createShortURL_valid_status (tExp tGen tCreate : Int) (host : String)
    (req : ShortURLRequest) (s : Store)
    (hurl : goHasPrefix req.url "http://" = true ∨
      goHasPrefix req.url "https://" = true) :
    (createShortURL tExp tGen tCreate host (some req) s).1.status = 409 ∨
    (createShortURL tExp tGen tCreate host (some req) s).1.status = 201 := by
  by_cases hsc : req.shortcode = ""
  · right
    rw [createShortURL_auto _ _ _ _ _ _ hurl hsc, insertAndRespond_eq]
    rfl
  · cases hex : mapLookup req.shortcode s.urlStore with
    | none =>
        right
        rw [createShortURL_custom _ _ _ _ _ _ hurl hsc hex,
          insertAndRespond_eq]
        rfl
    | some u =>
        left
        rw [createShortURL_conflict _ _ _ _ _ _ hurl hsc (by simp [hex])]
        rfl

/-! ## Claim C2 -/

/-- C2: `POST /shorturls` responds 400 exactly when the body fails to
decode or the supplied URL begins with neither `http://` nor `https://`;
and a 400 response leaves the store (both maps) unchanged. -/
theorem c2_create_badRequest (tExp tGen tCreate : Int) (host : String)
    (body : Option ShortURLRequest) (s : Store) :
    ((createShortURL tExp tGen tCreate host body s).1.status = 400 ↔
      body = none ∨ ∃ req, body = some req ∧
        goHasPrefix req.url "http://" = false ∧
        goHasPrefix req.url "https://" = false)
  ∧ ((createShortURL tExp tGen tCreate host body s).1.status = 400 →
      (createShortURL tExp tGen tCreate host body s).2 = s) := by
  cases body with
  | none =>
      exact ⟨by simp [createShortURL_noBody, CreateOutcome.status],
        fun _ => rfl⟩
  | some req =>
      by_cases hv : goHasPrefix req.url "http://" = false ∧
          goHasPrefix req.url "https://" = false
      · rw [createShortURL_invalidURL tExp tGen tCreate host req s hv.1 hv.2]
        refine ⟨?_, fun _ => rfl⟩
        exact iff_of_true rfl (Or.inr ⟨req, rfl, hv⟩)
      · have hurl := goHasPrefix_or_of_not_both hv
        have hne := createShortURL_valid_status tExp tGen tCreate host req s
          hurl
        refine ⟨iff_of_false ?_ ?_, ?_⟩
        · intro h400; rcases hne with h | h <;> simp [h] at h400
        · rintro (h | ⟨req', heq, hf1, hf2⟩)
          · simp at h
          · injection heq with heq'
            subst heq'
            exact hv ⟨hf1, hf2⟩
        · intro h400; rcases hne with h | h <;> simp [h] at h400

/-- Witness for C2: a body that fails to decode gets status 400 and leaves
the concrete store untouched. -/
theorem c2_create_badRequest_witness :
    (createShortURL 0 0 0 "h" none
      (Store.mk [("abc", ShortURL.mk "abc" "http://x" 0 9 true)]
        [("abc", [])])).2 =
      Store.mk [("abc", ShortURL.mk "abc" "http://x" 0 9 true)]
        [("abc", [])] :=
  (c2_create_badRequest 0 0 0 "h" none
    (Store.mk [("abc", ShortURL.mk "abc" "http://x" 0 9 true)]
      [("abc", [])])).2 rfl

/-! ## Claim C3 -/

/-- C3 counterexample: a create request whose URL has a disallowed scheme
but whose non-empty custom shortcode is already taken fails with 400, not
409 — the claim as stated omits the body/URL validation that precedes the
conflict check. -/
theorem c3_conflict_counterexample :
    ¬ ((createShortURL 0 0 0 "h"
      (some (ShortURLRequest.mk "ftp://x" 0 "abc"))
      (Store.mk [("abc", ShortURL.mk "abc" "http://a" 0 100 true)]
        [("abc", [])])).1.status = 409)
  ∧ (createShortURL 0 0 0 "h"
      (some (ShortURLRequest.mk "ftp://x" 0 "abc"))
      (Store.mk [("abc", ShortURL.mk "abc" "http://a" 0 100 true)]
        [("abc", [])])).1.status = 400 := by decide

/-- C3 (amended): for every create request with a well-formed body whose
URL begins with `http://` or `https://` and that supplies a non-empty
custom short code: if a record with that code already exists in the URL
store the handler fails with status 409 and the stores are unchanged;
otherwise the custom code is used verbatim as the new record's short code
(and as its key in the URL store) and the request succeeds with 201.
(With a malformed body or a disallowed URL scheme the handler fails with
400 even when the custom code conflicts.) -/
theorem c3_custom_code (tExp tGen tCreate : Int) (host : String)
    (req : ShortURLRequest) (s : Store)
    (hurl : goHasPrefix req.url "http://" = true ∨
      goHasPrefix req.url "https://" = true)
    (hsc : req.shortcode ≠ "") :
    ((mapLookup req.shortcode s.urlStore).isSome = true →
      (createShortURL tExp tGen tCreate host (some req) s).1.status = 409 ∧
      (createShortURL tExp tGen tCreate host (some req) s).2 = s)
  ∧ (mapLookup req.shortcode s.urlStore = none →
      ∃ rec, mapLookup req.shortcode
          (createShortURL tExp tGen tCreate host (some req) s).2.urlStore =
          some rec ∧
        rec.shortCode = req.shortcode ∧
        (createShortURL tExp tGen tCreate host (some req) s).1.status =
          201) := by
  constructor
  · intro hex
    rw [createShortURL_conflict tExp tGen tCreate host req s hurl hsc hex]
    exact ⟨rfl, rfl⟩
  · intro hex
    rw [createShortURL_custom tExp tGen tCreate host req s hurl hsc hex,
      insertAndRespond_eq]
    exact ⟨_, mapLookup_mapInsert_self _ _ _, rfl, rfl⟩

/-- Witness for C3 (amended): a taken custom code yields 409 with the store
unchanged; a fresh custom code is stored verbatim with 201. -/
theorem c3_custom_code_witness :
    ((createShortURL 0 0 0 "h"
      (some (ShortURLRequest.mk "http://x" 0 "abc"))
      (Store.mk [("abc", ShortURL.mk "abc" "http://a" 0 100 true)]
        [("abc", [])])).1.status = 409
    ∧ (createShortURL 0 0 0 "h"
        (some (ShortURLRequest.mk "http://x" 0 "abc"))
        (Store.mk [("abc", ShortURL.mk "abc" "http://a" 0 100 true)]
          [("abc", [])])).2 =
        Store.mk [("abc", ShortURL.mk "abc" "http://a" 0 100 true)]
          [("abc", [])])
  ∧ ∃ rec, mapLookup "xyz"
        (createShortURL 0 0 0 "h"
          (some (ShortURLRequest.mk "http://x" 0 "xyz"))
          (Store.mk [] [])).2.urlStore = some rec ∧
      rec.shortCode = "xyz" ∧
      (createShortURL 0 0 0 "h"
        (some (ShortURLRequest.mk "http://x" 0 "xyz"))
        (Store.mk [] [])).1.status = 201 :=
  ⟨(c3_custom_code 0 0 0 "h" (ShortURLRequest.mk "http://x" 0 "abc")
      (Store.mk [("abc", ShortURL.mk "abc" "http://a" 0 100 true)]
        [("abc", [])]) (Or.inl (by decide)) (by decide)).1 (by decide),
   (c3_custom_code 0 0 0 "h" (ShortURLRequest.mk "http://x" 0 "xyz")
      (Store.mk [] []) (Or.inl (by decide)) (by decide)).2 rfl⟩

/-! ## Claim C6 -/

/-- C6 counterexample: with a record already stored under the exact code
the generator produces for timestamp 0, an automatic create (no custom
code) at that timestamp silently overwrites it: the record's original URL
changes from "http://old" to "http://new", and the code's click list is
reset to empty although it previously held one click. -/
theorem c6_overwrite_counterexample :
    ((mapLookup (autoCode 0)
      ((createShortURL 5 0 5 "h"
        (some (ShortURLRequest.mk "http://new" 0 ""))
        (Store.mk
          [(autoCode 0, ShortURL.mk (autoCode 0) "http://old" 0 100 true)]
          [(autoCode 0, [Click.mk 1 "" "" "1.2.3.4"])])).2.urlStore)).map
      ShortURL.originalURL = some "http://new")
  ∧ ("http://new" : String) ≠ "http://old"
  ∧ (mapLookup (autoCode 0)
      ((createShortURL 5 0 5 "h"
        (some (ShortURLRequest.mk "http://new" 0 ""))
        (Store.mk
          [(autoCode 0, ShortURL.mk (autoCode 0) "http://old" 0 100 true)]
          [(autoCode 0, [Click.mk 1 "" "" "1.2.3.4"])])).2.analytics) =
      some [])
  ∧ some ([] : List Click) ≠ some [Click.mk 1 "" "" "1.2.3.4"] := by
  refine ⟨by decide, by decide, by decide, by decide⟩

/-- C6 (amended): every operation preserves, for each short code already in
the URL store, the presence of its record with unchanged short code and
original URL, and only ever appends to its click sequence — provided that
when the operation is an automatic create its generated code is not
already present (`createFresh`; custom-code creates are guarded by the 409
check, but a colliding generated code silently overwrites, as the spec's
section 4.2 itself documents). -/
theorem c6_store_invariant (op : Op) (s : Store) (h : createFresh op s)
    (c : String) (rec : ShortURL)
    (hc : mapLookup c s.urlStore = some rec) :
    (∃ rec', mapLookup c (applyOp op s).urlStore = some rec' ∧
      rec'.shortCode = rec.shortCode ∧
      rec'.originalURL = rec.originalURL)
  ∧ (∃ t, (mapLookup c (applyOp op s).analytics).getD [] =
      (mapLookup c s.analytics).getD [] ++ t) := by
  cases op with
  | stats shortCode =>
      simp only [applyOp, getURLStats_store]
      exact ⟨⟨rec, hc, rfl, rfl⟩, ⟨[], by simp⟩⟩
  | redirect tCheck tClick remoteAddr referer userAgent shortCode =>
      simp only [applyOp]
      cases hl : mapLookup shortCode s.urlStore with
      | none =>
          rw [redirectShortURL_absent _ _ _ _ _ _ _ hl]
          exact ⟨⟨rec, hc, rfl, rfl⟩, ⟨[], by simp⟩⟩
      | some u =>
          cases ha : u.isActive with
          | false =>
              rw [redirectShortURL_inactive _ _ _ _ _ _ _ u hl ha]
              exact ⟨⟨rec, hc, rfl, rfl⟩, ⟨[], by simp⟩⟩
          | true =>
              by_cases hx : u.expiresAt < tCheck
              · rw [redirectShortURL_expired _ _ _ _ _ _ _ u hl ha hx]
                exact ⟨⟨rec, hc, rfl, rfl⟩, ⟨[], by simp⟩⟩
              · rw [redirectShortURL_live _ _ _ _ _ _ _ u hl ha hx]
                refine ⟨⟨rec, hc, rfl, rfl⟩, ?_⟩
                by_cases hcc : c = shortCode
                · subst hcc
                  rw [mapLookup_mapInsert_self]
                  exact ⟨_, rfl⟩
                · rw [mapLookup_mapInsert_ne _ _ _ _ hcc]
                  exact ⟨[], by simp⟩
  | create tExp tGen tCreate host body =>
      simp only [applyOp]
      cases body with
      | none =>
          rw [createShortURL_noBody]
          exact ⟨⟨rec, hc, rfl, rfl⟩, ⟨[], by simp⟩⟩
      | some req =>
          by_cases hv : goHasPrefix req.url "http://" = false ∧
              goHasPrefix req.url "https://" = false
          · rw [createShortURL_invalidURL _ _ _ _ _ _ hv.1 hv.2]
            exact ⟨⟨rec, hc, rfl, rfl⟩, ⟨[], by simp⟩⟩
          · have hurl := goHasPrefix_or_of_not_both hv
            by_cases hsc : req.shortcode = ""
            · have hfresh : mapLookup (autoCode tGen) s.urlStore = none :=
                h hsc
              have hne : c ≠ autoCode tGen := by
                intro e; rw [e, hfresh] at hc; cases hc
              rw [createShortURL_auto _ _ _ _ _ _ hurl hsc,
                insertAndRespond_eq]
              refine ⟨⟨rec, ?_, rfl, rfl⟩, ?_⟩
              · rw [mapLookup_mapInsert_ne _ _ _ _ hne]; exact hc
              · rw [mapLookup_mapInsert_ne _ _ _ _ hne]
                exact ⟨[], by simp⟩
            · cases hex : mapLookup req.shortcode s.urlStore with
              | some u =>
                  rw [createShortURL_conflict _ _ _ _ _ _ hurl hsc
                    (by simp [hex])]
                  exact ⟨⟨rec, hc, rfl, rfl⟩, ⟨[], by simp⟩⟩
              | none =>
                  have hne : c ≠ req.shortcode := by
                    intro e; rw [e, hex] at hc; cases hc
                  rw [createShortURL_custom _ _ _ _ _ _ hurl hsc hex,
                    insertAndRespond_eq]
                  refine ⟨⟨rec, ?_, rfl, rfl⟩, ?_⟩
                  · rw [mapLookup_mapInsert_ne _ _ _ _ hne]; exact hc
                  · rw [mapLookup_mapInsert_ne _ _ _ _ hne]
                    exact ⟨[], by simp⟩

/-- Witness for C6 (amended): a concrete redirect extends the existing
record's click list while keeping its record intact. -/
theorem c6_store_invariant_witness :
    (∃ rec', mapLookup "abc"
        (applyOp (Op.redirect 1 1 "1.2.3.4:80" "r" "ua" "abc")
          (Store.mk [("abc", ShortURL.mk "abc" "http://x" 0 9 true)]
            [("abc", [])])).urlStore = some rec' ∧
      rec'.shortCode = "abc" ∧ rec'.originalURL = "http://x")
  ∧ (∃ t, (mapLookup "abc"
        (applyOp (Op.redirect 1 1 "1.2.3.4:80" "r" "ua" "abc")
          (Store.mk [("abc", ShortURL.mk "abc" "http://x" 0 9 true)]
            [("abc", [])])).analytics).getD [] =
      (mapLookup "abc"
        (Store.mk [("abc", ShortURL.mk "abc" "http://x" 0 9 true)]
          [("abc", [])] : Store).analytics).getD [] ++ t) :=
  c6_store_invariant (Op.redirect 1 1 "1.2.3.4:80" "r" "ua" "abc")
    (Store.mk [("abc", ShortURL.mk "abc" "http://x" 0 9 true)]
      [("abc", [])]) trivial "abc" (ShortURL.mk "abc" "http://x" 0 9 true)
    (by decide)

/-! ## Claim C7 -/

/-- C7 (spec-modelled generator): the automatic code generator is
deterministic — any two create requests without a custom code that observe
the same Unix timestamp store records under the same generated short code,
whatever their other inputs — and the generated code has at least 5
characters. -/
theorem c7_generator_deterministic (tGen : Int)
    (tExp1 tCreate1 tExp2 tCreate2 : Int) (host1 host2 : String)
    (req1 req2 : ShortURLRequest) (s1 s2 : Store)
    (hurl1 : goHasPrefix req1.url "http://" = true ∨
      goHasPrefix req1.url "https://" = true)
    (hurl2 : goHasPrefix req2.url "http://" = true ∨
      goHasPrefix req2.url "https://" = true)
    (hsc1 : req1.shortcode = "") (hsc2 : req2.shortcode = "") :
    ∃ rec1 rec2,
      mapLookup (autoCode tGen)
        (createShortURL tExp1 tGen tCreate1 host1 (some req1)
          s1).2.urlStore = some rec1 ∧
      mapLookup (autoCode tGen)
        (createShortURL tExp2 tGen tCreate2 host2 (some req2)
          s2).2.urlStore = some rec2 ∧
      rec1.shortCode = rec2.shortCode ∧
      rec1.shortCode = autoCode tGen ∧
      5 ≤ rec1.shortCode.length := by
  rw [createShortURL_auto _ _ _ _ _ _ hurl1 hsc1, insertAndRespond_eq,
    createShortURL_auto _ _ _ _ _ _ hurl2 hsc2, insertAndRespond_eq]
  exact ⟨_, _, mapLookup_mapInsert_self _ _ _,
    mapLookup_mapInsert_self _ _ _, rfl, rfl, hashidsEncode_length _⟩

/-- Witness for C7 at timestamp 0 and two different stores, hosts and
bodies. -/
theorem c7_generator_deterministic_witness :
    ∃ rec1 rec2,
      mapLookup (autoCode 0)
        (createShortURL 0 0 0 "h1"
          (some (ShortURLRequest.mk "http://a" 0 ""))
          (Store.mk [] [])).2.urlStore = some rec1 ∧
      mapLookup (autoCode 0)
        (createShortURL 7 0 9 "h2"
          (some (ShortURLRequest.mk "https://b" 5 ""))
          (Store.mk [("z", ShortURL.mk "z" "http://z" 0 1 true)]
            [("z", [])])).2.urlStore = some rec2 ∧
      rec1.shortCode = rec2.shortCode ∧
      rec1.shortCode = autoCode 0 ∧
      5 ≤ rec1.shortCode.length :=
  c7_generator_deterministic 0 0 0 7 9 "h1" "h2"
    (ShortURLRequest.mk "http://a" 0 "") (ShortURLRequest.mk "https://b" 5 "")
    (Store.mk [] [])
    (Store.mk [("z", ShortURL.mk "z" "http://z" 0 1 true)] [("z", [])])
    (Or.inl (by decide)) (Or.inr (by decide)) rfl rfl

/-! ## Claim C8 -/

/-- C8 counterexample: the handler always writes the literal scheme
`http://` into the short link (line 133), so for a request carried over
`https` the returned link is not formed from the request's scheme: at a
concrete successful create the emitted link differs from
`specShortLink "https" host code`. -/
theorem c8_scheme_counterexample :
    (createShortURL 0 0 0 "example.com"
      (some (ShortURLRequest.mk "https://orig" 0 "abc"))
      (Store.mk [] [])).1 =
      CreateOutcome.created
        (ShortURLResponse.mk "http://example.com/abc"
          "1970-01-01T00:30:00Z")
  ∧ ("http://example.com/abc" : String) ≠
      specShortLink "https" "example.com" "abc" := by
  refine ⟨by decide, by decide⟩

/-- C8 (amended): every successful create responds 201, and the body's
short link is the literal scheme `http://` (regardless of the scheme the
request arrived over), then the request's host (defaulting to
`localhost:8080` when the host is empty), then `/`, then the chosen short
code; the body also carries the computed expiry rendered in RFC 3339
text. -/
theorem c8_create_response (tExp tGen tCreate : Int) (host : String)
    (req : ShortURLRequest) (s : Store)
    (hurl : goHasPrefix req.url "http://" = true ∨
      goHasPrefix req.url "https://" = true)
    (hok : req.shortcode = "" ∨ mapLookup req.shortcode s.urlStore = none) :
    ∃ resp, (createShortURL tExp tGen tCreate host (some req) s).1 =
        CreateOutcome.created resp
      ∧ (createShortURL tExp tGen tCreate host (some req) s).1.status = 201
      ∧ resp.shortLink = "http://" ++
          (if host = "" then "localhost:8080" else host) ++ "/" ++
          chosenCode req tGen
      ∧ resp.expiry = formatRFC3339 (computedExpiry tExp req) := by
  rw [createShortURL_success tExp tGen tCreate host req s hurl hok,
    insertAndRespond_eq]
  exact ⟨_, rfl, rfl, rfl, rfl⟩

/-- Witness for C8 (amended) at a concrete create with custom code and an
empty host: the link uses the `localhost:8080` fallback and the hardcoded
`http://` scheme. -/
theorem c8_create_response_witness :
    ∃ resp, (createShortURL 0 0 0 ""
        (some (ShortURLRequest.mk "https://orig" 0 "abc"))
        (Store.mk [] [])).1 = CreateOutcome.created resp
      ∧ (createShortURL 0 0 0 ""
          (some (ShortURLRequest.mk "https://orig" 0 "abc"))
          (Store.mk [] [])).1.status = 201
      ∧ resp.shortLink = "http://" ++
          (if ("" : String) = "" then "localhost:8080" else "") ++ "/" ++
          chosenCode (ShortURLRequest.mk "https://orig" 0 "abc") 0
      ∧ resp.expiry = formatRFC3339
          (computedExpiry 0 (ShortURLRequest.mk "https://orig" 0 "abc")) :=
  c8_create_response 0 0 0 "" (ShortURLRequest.mk "https://orig" 0 "abc")
    (Store.mk [] []) (Or.inr (by decide)) (Or.inr rfl)

/-! ## Claim C9 -/

/-- C9 counterexample: the handler reads the clock once for the expiry
computation (line 90) and again for the stored creation timestamp
(line 117); when the clock advances between the two reads (here by one
nanosecond), a create with `validity = 0` stores
`expiresAt = 1800000000000` (30 minutes after the first read) and
`createdAt = 1`, so the expiry does not equal the creation time plus 30
minutes. -/
theorem c9_expiry_counterexample :
    mapLookup "abc"
      (createShortURL 0 0 1 "h"
        (some (ShortURLRequest.mk "http://x" 0 "abc"))
        (Store.mk [] [])).2.urlStore =
      some (ShortURL.mk "abc" "http://x" 1 1800000000000 true)
  ∧ (1800000000000 : Int) ≠ 1 + 30 * 60000000000 := by
  refine ⟨by decide, by decide⟩

/-- C9 (amended): for every create request that succeeds in storing a
record, the record's expiry equals the clock value read at the expiry
computation plus the effective validity (30 minutes when the field is zero
or omitted, else the supplied `v` minutes) converted through Go's
int64-nanosecond Duration multiplication — exactly plus `v` minutes
whenever |effective validity| ≤ 153722867, beyond which the product wraps;
the stored creation timestamp is the (separately read) clock value of the
record construction, so the expiry equals the creation time plus that
duration exactly when the clock does not advance between the two reads. -/
theorem c9_create_expiry (tExp tGen tCreate : Int) (host : String)
    (req : ShortURLRequest) (s : Store)
    (hurl : goHasPrefix req.url "http://" = true ∨
      goHasPrefix req.url "https://" = true)
    (hok : req.shortcode = "" ∨ mapLookup req.shortcode s.urlStore = none) :
    ∃ rec, mapLookup (chosenCode req tGen)
        (createShortURL tExp tGen tCreate host (some req) s).2.urlStore =
        some rec
      ∧ rec.createdAt = tCreate
      ∧ rec.expiresAt = tExp +
          goDurationMinutes (if req.validity = 0 then 30 else req.validity)
      ∧ ((if req.validity = 0 then (30 : Int) else req.validity).natAbs ≤
            153722867 →
          rec.expiresAt = tExp +
            (if req.validity = 0 then 30 else req.validity) * 60000000000)
      ∧ (tExp = tCreate → rec.expiresAt = rec.createdAt +
          goDurationMinutes
            (if req.validity = 0 then 30 else req.validity)) := by
  rw [createShortURL_success tExp tGen tCreate host req s hurl hok,
    insertAndRespond_eq]
  refine ⟨_, mapLookup_mapInsert_self _ _ _, rfl, rfl, ?_, ?_⟩
  · intro hb
    simp only [computedExpiry]
    rw [goDurationMinutes_eq _ hb]
  · intro he
    simp only [computedExpiry, he]

/-- Witness for C9 (amended): with both clock reads equal to 0 and no
validity supplied, the stored expiry is the unwrapped 30 minutes after
creation. -/
theorem c9_create_expiry_witness :
    ∃ rec, mapLookup (chosenCode (ShortURLRequest.mk "http://x" 0 "abc") 0)
        (createShortURL 0 0 0 "h"
          (some (ShortURLRequest.mk "http://x" 0 "abc"))
          (Store.mk [] [])).2.urlStore = some rec
      ∧ rec.createdAt = 0
      ∧ rec.expiresAt = 0 + goDurationMinutes
          (if (0 : Int) = 0 then 30
            else (ShortURLRequest.mk "http://x" 0 "abc").validity)
      ∧ ((if (0 : Int) = 0 then (30 : Int)
            else (ShortURLRequest.mk "http://x" 0 "abc").validity).natAbs ≤
            153722867 →
          rec.expiresAt = 0 +
            (if (0 : Int) = 0 then 30
              else (ShortURLRequest.mk "http://x" 0 "abc").validity) *
              60000000000)
      ∧ ((0 : Int) = 0 → rec.expiresAt = rec.createdAt + goDurationMinutes
          (if (0 : Int) = 0 then 30
            else (ShortURLRequest.mk "http://x" 0 "abc").validity)) :=
  c9_create_expiry 0 0 0 "h" (ShortURLRequest.mk "http://x" 0 "abc")
    (Store.mk [] []) (Or.inl (by decide)) (Or.inr rfl)

/-! ## Claim C10 -/

/-- C10 counterexample: `time.Duration(req.Validity) * time.Minute` is
int64-nanosecond arithmetic; at validity = -307000000 the product wraps to
a POSITIVE duration of 26744073709551616 ns (about 309 days), so the
stored expiry lies strictly after the creation timestamp and an
immediately subsequent redirect succeeds with 302 instead of failing with
410, refuting the claim's "expiry strictly before creation, so every
subsequent redirect fails with 410" for this strictly negative
validity. -/
theorem c10_wrap_counterexample :
    mapLookup "abc"
      (createShortURL 0 0 0 "h"
        (some (ShortURLRequest.mk "http://x" (-307000000) "abc"))
        (Store.mk [] [])).2.urlStore =
      some (ShortURL.mk "abc" "http://x" 0 26744073709551616 true)
  ∧ (0 : Int) < 26744073709551616
  ∧ (redirectShortURL 0 0 "1.2.3.4:80" "r" "ua" "abc"
      (createShortURL 0 0 0 "h"
        (some (ShortURLRequest.mk "http://x" (-307000000) "abc"))
        (Store.mk [] [])).2).1.status = 302
  ∧ (302 : Nat) ≠ 410 := by
  refine ⟨by decide, by decide, by decide, by decide⟩

/-- C10 (amended): a create request with a valid URL, a usable shortcode
(fresh or absent) and a strictly negative validity is accepted with status
201 — the 30-minute default applies only when the validity is exactly
zero — and, provided the validity is at least -153722867 so that Go's
int64-nanosecond Duration multiplication does not wrap, the stored expiry
is the expiry-read clock plus `v` minutes, which lies strictly before the
stored creation timestamp, and — the clock being monotone across the
reads — any subsequent redirect for that code fails with status 410.
(Beyond the wrap bound the product can wrap positive and redirects
succeed: see the counterexample.) -/
theorem c10_negative_validity (tExp tGen tCreate tCheck tClick : Int)
    (host remoteAddr referer userAgent : String)
    (req : ShortURLRequest) (s : Store)
    (hurl : goHasPrefix req.url "http://" = true ∨
      goHasPrefix req.url "https://" = true)
    (hok : req.shortcode = "" ∨ mapLookup req.shortcode s.urlStore = none)
    (hneg : req.validity < 0) (hwrap : -153722867 ≤ req.validity)
    (hm1 : tExp ≤ tCreate) (hm2 : tCreate ≤ tCheck) :
    (createShortURL tExp tGen tCreate host (some req) s).1.status = 201
  ∧ (∃ rec, mapLookup (chosenCode req tGen)
      (createShortURL tExp tGen tCreate host (some req) s).2.urlStore =
      some rec
    ∧ rec.expiresAt = tExp + req.validity * 60000000000
    ∧ rec.expiresAt < rec.createdAt)
  ∧ (redirectShortURL tCheck tClick remoteAddr referer userAgent
      (chosenCode req tGen)
      (createShortURL tExp tGen tCreate host (some req) s).2).1.status =
      410 := by
  have hv0 : ¬ req.validity = 0 := by omega
  have hd : goDurationMinutes req.validity = req.validity * 60000000000 :=
    goDurationMinutes_eq _ (by omega)
  rw [createShortURL_success tExp tGen tCreate host req s hurl hok,
    insertAndRespond_eq]
  simp only [computedExpiry, if_neg hv0, hd]
  refine ⟨rfl, ⟨_, mapLookup_mapInsert_self _ _ _, rfl, by
    simp only; omega⟩, ?_⟩
  rw [redirectShortURL_expired _ _ _ _ _ _ _ _
    (mapLookup_mapInsert_self _ _ _) rfl (by simp only; omega)]
  rfl

/-- Witness for C10 (amended): validity -1 at concrete clocks stores
expiry -60000000000 ns, which precedes creation time 0, and the immediate
redirect returns 410. -/
theorem c10_negative_validity_witness :
    (createShortURL 0 0 0 "h"
      (some (ShortURLRequest.mk "http://x" (-1) "abc"))
      (Store.mk [] [])).1.status = 201
  ∧ (∃ rec, mapLookup (chosenCode (ShortURLRequest.mk "http://x" (-1) "abc")
        0)
      (createShortURL 0 0 0 "h"
        (some (ShortURLRequest.mk "http://x" (-1) "abc"))
        (Store.mk [] [])).2.urlStore = some rec
    ∧ rec.expiresAt = 0 + (-1) * 60000000000
    ∧ rec.expiresAt < rec.createdAt)
  ∧ (redirectShortURL 0 0 "1.2.3.4:80" "r" "ua"
      (chosenCode (ShortURLRequest.mk "http://x" (-1) "abc") 0)
      (createShortURL 0 0 0 "h"
        (some (ShortURLRequest.mk "http://x" (-1) "abc"))
        (Store.mk [] [])).2).1.status = 410 :=
  c10_negative_validity 0 0 0 0 0 "h" "1.2.3.4:80" "r" "ua"
    (ShortURLRequest.mk "http://x" (-1) "abc") (Store.mk [] [])
    (Or.inl (by decide)) (Or.inr rfl) (by decide) (by decide) le_rfl
    le_rfl

end URLShortener
